import Mathlib

/-!
# Verification of the ephemeral sub-agent delegation core

A shallow embedding, in Lean 4, of `src/core/src/delegation.ts` of the
`tinyclaw` repository: tool-call extraction from free-form model text,
argument-name normalization, the bounded sub-agent execution loop, the
tool executor, the timeout/catch boundary, and the `delegate_task` entry
point, together with theorems settling the specification's claims.

External JavaScript primitives are modelled as parameters:
`JSON.parse` becomes a function `String → Option Js` (a rejected parse
is `none`), `crypto.randomUUID()` becomes a supplied id, and the chat
backend becomes a function from the accumulated message history to a
response. Machine details that the claims do not touch (floating-point
numbers inside JSON values) are modelled with `Int`.
-/

namespace Tinyclaw

/-- The opening-brace character, written by code point to keep braces out
of character literals. -/
def lbrace : Char := Char.ofNat 123

/-- The closing-brace character. -/
def rbrace : Char := Char.ofNat 125

/-- A JavaScript/JSON value, as produced by `JSON.parse`. JSON numbers
are IEEE doubles in JavaScript; the claims never exercise numeric
stringification, so `Int` stands in for them here. -/
inductive Js where
  | null : Js
  | bool (b : Bool) : Js
  | num (n : Int) : Js
  | str (s : String) : Js
  | arr (elems : List Js) : Js
  | obj (fields : List (String × Js)) : Js
deriving Repr, BEq

/-- JavaScript's `String(v)` conversion, restricted to JSON values:
`null` prints `"null"`, booleans print their keyword, strings are
themselves, arrays join their elements with `","` (with `null` elements
contributing the empty string, as `Array.prototype.join` does), and
plain objects print `"[object Object]"`. -/
def jsToString : Js → String
  | Js.null => "null"
  | Js.bool true => "true"
  | Js.bool false => "false"
  | Js.num n => toString n
  | Js.str s => s
  | Js.obj _ => "[object Object]"
  | Js.arr elems => jsArrJoin elems
where
  /-- `Array.prototype.toString`, i.e. `join(",")`: `null` elements
  become the empty string. -/
  jsArrJoin : List Js → String
    | [] => ""
    | [Js.null] => ""
    | [x] => jsToString x
    | Js.null :: rest => "," ++ jsArrJoin rest
    | x :: rest => jsToString x ++ "," ++ jsArrJoin rest

/-- Whether a JS record (association list of object fields) has a key:
JavaScript's `key in obj`. -/
def hasKey (fields : List (String × Js)) (k : String) : Bool :=
  fields.any (fun kv => kv.1 == k)

/-- Property lookup `obj[k]` on a JS record; fields of a parsed JSON
object have distinct keys, so the first match is the value. -/
def jsLookup (fields : List (String × Js)) (k : String) : Js :=
  match fields.find? (fun kv => kv.1 == k) with
  | some kv => kv.2
  | none => Js.null

/-- The guard `typeof parsed === 'object' && parsed` survives for plain objects
only, as far as the extractor is concerned: `null` is falsy, primitives
have another `typeof`, and an array can never contain the alias keys
`action`/`tool`/`name` as properties, so it always falls through the
key lookup to the `return null`. -/
def Js.isPlainObj : Js → Bool
  | Js.obj _ => true
  | _ => false

/-- A tool-call record — an id, a name and an argument mapping
(`ToolCall` in `types.ts`). -/
structure ToolCall where
  id : String
  name : String
  arguments : List (String × Js)
deriving Repr, BEq

/-- Constant `TOOL_ACTION_KEYS` from `delegation.ts`: the ordered alias keys by
which a tool name may be given in a JSON-in-text tool call. -/
def TOOL_ACTION_KEYS : List String := ["action", "tool", "name"]

/-- Function `normalizeToolArguments` from `delegation.ts`: copy the argument
record; if it lacks a `filename` key, adopt the value of `file_path`,
or failing that of `path`, appending the new property as the JS spread
+ assignment does. -/
def normalizeToolArguments (args : List (String × Js)) :
    List (String × Js) :=
  if hasKey args "filename" then args
  else if hasKey args "file_path" then
    args ++ [("filename", jsLookup args "file_path")]
  else if hasKey args "path" then
    args ++ [("filename", jsLookup args "path")]
  else args

/-- JavaScript `text.indexOf(c)`, as an `Option Nat` over the character
list (`none` for `-1`). -/
def charIndexOf (cs : List Char) (c : Char) : Option Nat :=
  cs.findIdx? (fun ch => ch == c)

/-- JavaScript `text.lastIndexOf(c)` over the character list. -/
def charLastIndexOf (cs : List Char) (c : Char) : Option Nat :=
  (cs.reverse.findIdx? (fun ch => ch == c)).map
    (fun i => cs.length - 1 - i)

/-- JavaScript's `String.prototype.trim()` on a character list: drop
whitespace from both ends. (JS also strips some exotic Unicode spaces;
the texts at issue are ASCII, where the whitespace sets agree.) -/
def trimChars (cs : List Char) : List Char :=
  ((cs.dropWhile Char.isWhitespace).reverse.dropWhile
    Char.isWhitespace).reverse

/-- The brace-scanning slice of `extractToolCallFromText`: locate the
first opening brace and the last closing brace; if either is absent or
the closing one does not come after the opening one, fail; otherwise
return `text.slice(start, end + 1).trim()`. -/
def braceSlice (text : String) : Option String :=
  let cs := text.toList
  match charIndexOf cs lbrace, charLastIndexOf cs rbrace with
  | some start, some stop =>
      if stop ≤ start then none
      else some (String.mk (trimChars ((cs.drop start).take (stop + 1 - start))))
  | _, _ => none

/-- The post-parse half of `extractToolCallFromText`: reject non-objects
(`!parsed || typeof parsed !== 'object'`, and arrays via the key
lookup); find the first alias key present; stringify its value; reject
an empty name; destructure away `action`, `tool` and `name`; normalize
the remaining keys into the argument record. `newId` stands for
`crypto.randomUUID()`. -/
def extractFromParsed (newId : String) (parsed : Js) : Option ToolCall :=
  match parsed with
  | Js.obj fields =>
      match TOOL_ACTION_KEYS.find? (fun k => hasKey fields k) with
      | none => none
      | some actionKey =>
          let toolName := jsToString (jsLookup fields actionKey)
          if toolName = "" then none
          else
            some { id := newId
                   name := toolName
                   arguments := normalizeToolArguments
                     (fields.filter
                       (fun kv => !(TOOL_ACTION_KEYS.contains kv.1))) }
  | _ => none

/-- Function `extractToolCallFromText` from `delegation.ts`, with `JSON.parse`
abstracted as `parse` (a rejected parse is `none`) and the fresh UUID
as `newId`. -/
def extractToolCallFromText (parse : String → Option Js) (newId : String)
    (text : String) : Option ToolCall :=
  if text = "" then none
  else
    match braceSlice text with
    | none => none
    | some raw =>
        match parse raw with
        | none => none
        | some parsed => extractFromParsed newId parsed

/-- A chat message (`Message` in `types.ts`, as used by `delegation.ts`):
a role tag, text content, optionally the tool calls emitted by an
assistant turn, and optionally the id correlating a tool-result message
with its originating call. -/
structure Message where
  role : String
  content : String
  toolCalls : Option (List ToolCall) := none
  toolCallId : Option String := none
deriving Repr, BEq

/-- A backend chat response, the tagged variant `delegation.ts` branches
on: a `type` tag (`"text"` or `"tool_calls"`), optional text content,
and optional native tool calls. -/
structure ChatResponse where
  type : String
  content : Option String := none
  toolCalls : Option (List ToolCall) := none
deriving Repr

/-- A tool capability: a name and an `execute` that either returns text
or throws (modelled by `Except`, the thrown error's message on the
left). -/
structure Tool where
  name : String
  execute : List (String × Js) → Except String String

/-- A chat backend (`Provider`): an identifier and a `chat` function
from the accumulated history and granted tool list to a response. A
transport failure (a rejected promise) is handled separately at the
guard boundary, see `GuardEvent`. -/
structure Provider where
  id : String
  chat : List Message → List Tool → ChatResponse

/-- Function `executeToolCall` from `delegation.ts`: look the call's name up in
the granted tool list; if absent, return a text naming the missing
tool; if present, invoke it, converting a thrown error into an
`Error: ...` text. Never raises: every branch returns a string. -/
def executeToolCall (toolCall : ToolCall) (tools : List Tool) : String :=
  match tools.find? (fun t => t.name == toolCall.name) with
  | none => "Error: Tool \"" ++ toolCall.name ++ "\" not found"
  | some tool =>
      match tool.execute toolCall.arguments with
      | Except.ok output => output
      | Except.error msg => "Error: " ++ msg

/-- Constant `SUB_AGENT_MAX_ITERATIONS` from `delegation.ts`. -/
def SUB_AGENT_MAX_ITERATIONS : Nat := 10

/-- The sub-agent outcome record (`SubAgentResult`). -/
structure SubAgentResult where
  success : Bool
  response : String
  iterations : Nat
  providerId : String
deriving Repr, DecidableEq

/-- The fixed exhaustion message returned when the turn cap is reached
without a terminal text response. -/
def maxIterationsMessage : String :=
  "Sub-agent reached maximum iterations without completing the task."

/-- The two messages appended per native tool call: one assistant
message carrying that single call and one tool-result message
correlated to it by id. -/
def nativeCallMessages (assistantContent : String) (calls : List ToolCall)
    (tools : List Tool) : List Message :=
  calls.flatMap (fun tc =>
    [ { role := "assistant", content := assistantContent,
        toolCalls := some [tc] },
      { role := "tool", content := executeToolCall tc tools,
        toolCallId := some tc.id } ])

/-- The `for` loop inside `runSubAgent`'s `run` closure, as fuel
recursion: `fuel` is the number of loop iterations still permitted and
`turn` the number already executed (the JS loop counter `i`), so the
initial call is `fuel = SUB_AGENT_MAX_ITERATIONS`, `turn = 0`. The
mutable `iterations` variable always holds `turn` at the top of the
loop and `turn + 1` after the assignment at the start of a body.
Branches: a `"text"` response either continues with the extracted
JSON-in-text call executed and recorded, or is the final answer; a
`"tool_calls"` response with a non-empty call list executes each call
in order and continues; anything else falls through to the next
iteration. `parse` abstracts `JSON.parse` and `genId turn` the fresh
UUID for the turn's extraction. -/
def runLoopAux (parse : String → Option Js) (genId : Nat → String)
    (provider : Provider) (tools : List Tool) :
    Nat → Nat → List Message → SubAgentResult
  | 0, turn, _ =>
      { success := false
        response := maxIterationsMessage
        iterations := turn
        providerId := provider.id }
  | fuel + 1, turn, messages =>
      let response := provider.chat messages tools
      if response.type = "text" then
        let content := (response.content).getD ""
        match extractToolCallFromText parse (genId turn) content with
        | some toolCall =>
            let result := executeToolCall toolCall tools
            runLoopAux parse genId provider tools fuel (turn + 1)
              (messages ++
                [ { role := "assistant", content := content },
                  { role := "tool", content := result,
                    toolCallId := some toolCall.id } ])
        | none =>
            { success := true
              response := content
              iterations := turn + 1
              providerId := provider.id }
      else if response.type = "tool_calls" ∧
          ((response.toolCalls).getD []).length ≠ 0 then
        runLoopAux parse genId provider tools fuel (turn + 1)
          (messages ++
            nativeCallMessages ((response.content).getD "")
              ((response.toolCalls).getD []) tools)
      else
        runLoopAux parse genId provider tools fuel (turn + 1) messages

/-- The system prompt built by `runSubAgent` from the role text. -/
def systemPromptFor (role : String) : String :=
  "You are a focused sub-agent with the role: " ++ role ++ ".\n\n" ++
  "Complete the following task and return a clear, concise result.\n" ++
  "Do not ask follow-up questions — use your best judgment and available tools.\n" ++
  "When you have finished, respond with your final answer as plain text."

/-- The two-message seed history: a system message framing the role and
a user message carrying the task verbatim. -/
def buildSeedMessages (role task : String) : List Message :=
  [ { role := "system", content := systemPromptFor role },
    { role := "user", content := task } ]

/-- The `run` closure of `runSubAgent`: seed the history and run the
bounded loop. This is the loop's result when no exception and no timer
interferes; the guard boundary around it is `guardedOutcome`. -/
def runSubAgent (parse : String → Option Js) (genId : Nat → String)
    (task role : String) (provider : Provider) (tools : List Tool) :
    SubAgentResult :=
  runLoopAux parse genId provider tools SUB_AGENT_MAX_ITERATIONS 0
    (buildSeedMessages role task)

/-- How the `Promise.race` of `run()` against the deadline timer
settles — the external, nondeterministic part of `runSubAgent`. Either
the loop completes first with its result; or the timer rejects first
with `Error('Sub-agent timed out')`; or the loop itself rejects (for
example, a backend transport failure). The two rejection cases carry
the value of the captured mutable `iterations` variable at the moment
the race settles. -/
inductive GuardEvent where
  | completed (result : SubAgentResult) : GuardEvent
  | timerFired (iterationsSoFar : Nat) : GuardEvent
  | loopThrew (msg : String) (iterationsSoFar : Nat) : GuardEvent

/-- The timer's rejection message in `runSubAgent`. -/
def timeoutMessage : String := "Sub-agent timed out"

/-- The `try`/`catch` boundary of `runSubAgent` (its last statement): a
completed race returns the loop's result; any rejection — the timer's
or the loop's — is caught and converted to a failure outcome embedding
the error's message, with the `iterations` counter as it stood. -/
def guardedOutcome (providerId : String) : GuardEvent → SubAgentResult
  | GuardEvent.completed result => result
  | GuardEvent.timerFired n =>
      { success := false
        response := "Sub-agent error: " ++ timeoutMessage
        iterations := n
        providerId := providerId }
  | GuardEvent.loopThrew msg n =>
      { success := false
        response := "Sub-agent error: " ++ msg
        iterations := n
        providerId := providerId }

/-- Constant `DEFAULT_SAFE_TOOLS` from `delegation.ts`. -/
def DEFAULT_SAFE_TOOLS : List String :=
  ["heartware_read", "heartware_search", "heartware_list", "memory_recall"]

/-- The allowed-name set assembled by the `delegate_task` `execute`:
`new Set([...safeToolNames, ...additionalToolNames])` followed by
`delete('delegate_task')`. The JS `Set` is modelled by a duplicate-free
list; only membership is ever consulted (via `has`). -/
def allowedToolNames (safeToolNames additionalToolNames : List String) :
    List String :=
  ((safeToolNames ++ additionalToolNames).dedup).filter
    (fun n => n ≠ "delegate_task")

/-- The tool objects handed to the sub-agent:
`allTools.filter((t) => allowedToolNames.has(t.name))`. -/
def subAgentToolsOf (allTools : List Tool)
    (safeToolNames additionalToolNames : List String) : List Tool :=
  allTools.filter (fun t =>
    (allowedToolNames safeToolNames additionalToolNames).contains t.name)

/-- The arguments of the `delegate_task` `execute`, typed as the
entry-point surface declares them: `task` and `role` are text, `tier`
an optional token, `tools` an optional list of names; an absent
property is `none` (JS `undefined`). -/
structure DelegateArgs where
  task : Option String := none
  role : Option String := none
  tier : Option String := none
  tools : Option (List String) := none

/-- The validation test `!task?.trim()`: falsy when the property is
absent or its text trims to nothing. -/
def isBlankArg : Option String → Bool
  | none => true
  | some s => (trimChars s.toList).isEmpty

/-- Step 1 of the `delegate_task` `execute`: `if (tierOverride)` — a
present, non-empty tier token is looked up directly
(`getRegistry().getForTier`), otherwise the task text is auto-routed
(`routeWithHealth`). Both collaborators may throw; `Except.error`
carries the thrown message. -/
def resolveProvider (getForTier : String → Except String Provider)
    (routeWithHealth : String → Except String Provider)
    (tier : Option String) (task : String) : Except String Provider :=
  match tier with
  | some t => if t = "" then routeWithHealth task else getForTier t
  | none => routeWithHealth task

/-- Step 4 of the `delegate_task` `execute`: format the sub-agent
outcome into the single returned text block. -/
def formatDelegationResult (role : String) (result : SubAgentResult) :
    String :=
  if result.success then
    "[Sub-agent (" ++ role ++ ") completed in " ++
      toString result.iterations ++ " iteration(s) via " ++
      result.providerId ++ "]\n\n" ++ result.response
  else
    "[Sub-agent (" ++ role ++ ") failed after " ++
      toString result.iterations ++ " iteration(s)]\n\n" ++
      "Error: " ++ result.response

/-- The `execute` of the tool returned by `createDelegationTool`:
validate `task` and `role`, resolve a provider, assemble the granted
tool set, run the sub-agent, format the outcome. Every branch returns
a string — the function is total, so the entry point never raises. The
closure-captured collaborators (`JSON.parse`, UUIDs, the registry
lookup, the health router, the tool catalog, the safe-name override)
are parameters. -/
def delegateExecute (parse : String → Option Js) (genId : Nat → String)
    (getForTier : String → Except String Provider)
    (routeWithHealth : String → Except String Provider)
    (allTools : List Tool) (safeToolNames : List String)
    (args : DelegateArgs) : String :=
  let additionalToolNames := (args.tools).getD []
  if isBlankArg args.task then
    "Error: task must be a non-empty string."
  else if isBlankArg args.role then
    "Error: role must be a non-empty string."
  else
    let task := (args.task).getD ""
    let role := (args.role).getD ""
    match resolveProvider getForTier routeWithHealth args.tier task with
    | Except.error e => "Error resolving provider: " ++ e
    | Except.ok provider =>
        formatDelegationResult role
          (runSubAgent parse genId task role provider
            (subAgentToolsOf allTools safeToolNames additionalToolNames))

/-! ## Concrete fixtures, used by witness theorems -/

/-- A parse oracle that rejects everything — adequate for texts that
contain no brace-delimited slice at all. -/
def noParse : String → Option Js := fun _ => none

/-- A fixed id supply standing in for `crypto.randomUUID()`. -/
def genId0 : Nat → String := fun _ => "id-0"

/-- A backend that always answers with the plain text `"Done."`. -/
def textProvider : Provider :=
  { id := "p1", chat := fun _ _ => { type := "text", content := some "Done." } }

/-- A backend that always answers with one native tool call. -/
def toolCallsProvider : Provider :=
  { id := "p2",
    chat := fun _ _ =>
      { type := "tool_calls", content := none,
        toolCalls := some [{ id := "c1", name := "heartware_read",
                             arguments := [] }] } }

/-- The JSON text consisting of an opening brace, the fields
`"action":"read"` and `"path":"a.txt"`, and a closing brace — the
braces are written with hex escapes. -/
def tcText : String := "\x7b\"action\":\"read\",\"path\":\"a.txt\"\x7d"

/-- A parse oracle agreeing with `JSON.parse` on `tcText` and rejecting
everything else. -/
def parseFix : String → Option Js := fun s =>
  if s = tcText then
    some (Js.obj [("action", Js.str "read"), ("path", Js.str "a.txt")])
  else none

/-- A two-tool catalog: one tool that succeeds and one whose `execute`
throws. -/
def fixtureTools : List Tool :=
  [ { name := "good", execute := fun _ => Except.ok "good output" },
    { name := "bad", execute := fun _ => Except.error "boom" } ]

/-- A one-tool catalog holding only the default-safe `heartware_read`. -/
def fixtureCatalog : List Tool :=
  [ { name := "heartware_read", execute := fun _ => Except.ok "file body" } ]

/-- The single tool of `fixtureCatalog`. -/
def fixtureReadTool : Tool :=
  { name := "heartware_read", execute := fun _ => Except.ok "file body" }

/-- A registry lookup that always throws. -/
def failingGetForTier : String → Except String Provider :=
  fun t => Except.error ("No provider for tier: " ++ t)

/-- A health router that always throws. -/
def failingRouter : String → Except String Provider :=
  fun _ => Except.error "no healthy provider"

/-! ## Theorems -/

/-- The loop's `iterations` never exceeds the turns already executed
plus the remaining fuel. -/
theorem runLoopAux_iterations_le (parse : String → Option Js)
    (genId : Nat → String) (provider : Provider) (tools : List Tool) :
    ∀ (fuel turn : Nat) (messages : List Message),
      (runLoopAux parse genId provider tools fuel turn messages).iterations ≤
        turn + fuel := by
  intro fuel
  induction fuel with
  | zero => intro turn messages; simp [runLoopAux]
  | succ n ih =>
      intro turn messages
      rw [runLoopAux]
      dsimp only
      split
      · split
        · exact le_trans (ih _ _) (by omega)
        · dsimp only; omega
      · split
        · exact le_trans (ih _ _) (by omega)
        · exact le_trans (ih _ _) (by omega)

/-- C1: for every run of the sub-agent loop — any backend behaviour,
any tool list, any parse oracle — the returned outcome's `iterations`
field never exceeds `SUB_AGENT_MAX_ITERATIONS`, which is 10. -/
theorem runSubAgent_iterations_le_cap (parse : String → Option Js)
    (genId : Nat → String) (task role : String) (provider : Provider)
    (tools : List Tool) :
    (runSubAgent parse genId task role provider tools).iterations ≤
        SUB_AGENT_MAX_ITERATIONS ∧ SUB_AGENT_MAX_ITERATIONS = 10 := by
  refine ⟨?_, rfl⟩
  have h := runLoopAux_iterations_le parse genId provider tools
    SUB_AGENT_MAX_ITERATIONS 0 (buildSeedMessages role task)
  simpa [runSubAgent] using h

/-- C4: at the guard boundary of `runSubAgent`, a deadline firing
mid-loop yields a returned (never thrown) outcome with
`success = false`, the timeout-indicating response
`"Sub-agent error: Sub-agent timed out"`, and `iterations` as the
counter stood when the timer fired; any exception raised by the loop is
caught at the same boundary and converted to the same failure shape
with the exception's message embedded; a loop that finishes first has
its result returned unchanged. -/
theorem guardedOutcome_spec (pid : String) (n : Nat) (msg : String)
    (r : SubAgentResult) :
    guardedOutcome pid (GuardEvent.timerFired n) =
      { success := false, response := "Sub-agent error: Sub-agent timed out",
        iterations := n, providerId := pid } ∧
    guardedOutcome pid (GuardEvent.loopThrew msg n) =
      { success := false, response := "Sub-agent error: " ++ msg,
        iterations := n, providerId := pid } ∧
    guardedOutcome pid (GuardEvent.completed r) = r :=
  ⟨rfl, rfl, rfl⟩

/-- C2: for any caller-supplied additional tool list, membership in the
granted capability set is exactly membership in the union of the
default safe set and the additions, minus `delegate_task`; in
particular `delegate_task` is never in the set, and no tool handed to
the sub-agent bears that name. -/
theorem allowedToolNames_spec (additional : List String) (n : String) :
    (n ∈ allowedToolNames DEFAULT_SAFE_TOOLS additional ↔
      ((n ∈ DEFAULT_SAFE_TOOLS ∨ n ∈ additional) ∧ n ≠ "delegate_task")) ∧
    "delegate_task" ∉ allowedToolNames DEFAULT_SAFE_TOOLS additional ∧
    (∀ (allTools : List Tool) (t : Tool),
      t ∈ subAgentToolsOf allTools DEFAULT_SAFE_TOOLS additional →
      t.name ≠ "delegate_task") := by
  refine ⟨?_, ?_, ?_⟩
  · simp [allowedToolNames, List.mem_filter, List.mem_dedup, List.mem_append]
  · simp [allowedToolNames, List.mem_filter]
  · intro allTools t ht hn
    have h := List.of_mem_filter ht
    have hmem := List.mem_of_elem_eq_true h
    rw [hn] at hmem
    simp [allowedToolNames, List.mem_filter] at hmem

/-- C2, instantiated: a caller explicitly requesting `delegate_task`
still does not get it into the granted set. -/
theorem allowedToolNames_spec_witness :
    "delegate_task" ∉ allowedToolNames DEFAULT_SAFE_TOOLS ["delegate_task"] :=
  (allowedToolNames_spec ["delegate_task"] "x").2.1

/-- C5: the tool executor never raises (it is a total function into
strings). A name missing from the granted list returns a text naming
the missing tool; a found tool whose `execute` throws has the
exception converted to an `Error:` text; any tool it actually finds
and invokes is a member of the granted list with the call's name; and
inside the loop, a text turn with an extracted call continues to the
next turn with the executor's text as the tool-result message, rather
than terminating. -/
theorem executeToolCall_spec :
    (∀ (tc : ToolCall) (tools : List Tool),
        tools.find? (fun t => t.name == tc.name) = none →
        executeToolCall tc tools =
          "Error: Tool \"" ++ tc.name ++ "\" not found") ∧
    (∀ (tc : ToolCall) (tools : List Tool) (t : Tool) (msg : String),
        tools.find? (fun t => t.name == tc.name) = some t →
        t.execute tc.arguments = Except.error msg →
        executeToolCall tc tools = "Error: " ++ msg) ∧
    (∀ (tc : ToolCall) (tools : List Tool) (t : Tool),
        tools.find? (fun t => t.name == tc.name) = some t →
        t.name = tc.name ∧ t ∈ tools) ∧
    (∀ (parse : String → Option Js) (genId : Nat → String)
        (provider : Provider) (tools : List Tool)
        (fuel turn : Nat) (messages : List Message)
        (txt : String) (tc : ToolCall),
        (provider.chat messages tools).type = "text" →
        (provider.chat messages tools).content = some txt →
        extractToolCallFromText parse (genId turn) txt = some tc →
        runLoopAux parse genId provider tools (fuel + 1) turn messages =
          runLoopAux parse genId provider tools fuel (turn + 1)
            (messages ++
              [ { role := "assistant", content := txt },
                { role := "tool", content := executeToolCall tc tools,
                  toolCallId := some tc.id } ])) := by
  refine ⟨?_, ?_, ?_, ?_⟩
  · intro tc tools h
    simp [executeToolCall, h]
  · intro tc tools t msg hfind hexec
    simp [executeToolCall, hfind, hexec]
  · intro tc tools t hfind
    refine ⟨?_, List.mem_of_find?_eq_some hfind⟩
    have := List.find?_some hfind
    exact eq_of_beq this
  · intro parse genId provider tools fuel turn messages txt tc htype hcontent hext
    rw [runLoopAux]
    simp [htype, hcontent, hext]

/-- C5, instantiated on a concrete two-tool list: a lookup miss returns
the missing-tool text, a throwing tool returns the converted error
text. -/
theorem executeToolCall_spec_witness :
    executeToolCall { id := "c1", name := "ghost", arguments := [] }
        fixtureTools = "Error: Tool \"ghost\" not found" ∧
    executeToolCall { id := "c2", name := "bad", arguments := [] }
        fixtureTools = "Error: boom" :=
  ⟨executeToolCall_spec.1 _ fixtureTools rfl,
   executeToolCall_spec.2.1 _ fixtureTools
     { name := "bad", execute := fun _ => Except.error "boom" } "boom" rfl rfl⟩

/-- C8: a backend text response from which no tool call can be
extracted terminates the loop with `success = true`, the backend's
text as the response, and `iterations` equal to the current turn
number. -/
theorem runLoopAux_text_final (parse : String → Option Js)
    (genId : Nat → String) (provider : Provider) (tools : List Tool)
    (fuel turn : Nat) (messages : List Message) (txt : String)
    (htype : (provider.chat messages tools).type = "text")
    (hcontent : (provider.chat messages tools).content = some txt)
    (hext : extractToolCallFromText parse (genId turn) txt = none) :
    runLoopAux parse genId provider tools (fuel + 1) turn messages =
      { success := true, response := txt, iterations := turn + 1,
        providerId := provider.id } := by
  rw [runLoopAux]
  simp [htype, hcontent, hext]

/-- C8, instantiated: a backend answering `"Done."` on turn 1 yields a
successful outcome with response `"Done."` and one iteration. -/
theorem runLoopAux_text_final_witness :
    runSubAgent noParse genId0 "Summarize doc" "Summarizer" textProvider [] =
      { success := true, response := "Done.", iterations := 1,
        providerId := "p1" } := by
  have h := runLoopAux_text_final noParse genId0 textProvider [] 9 0
    (buildSeedMessages "Summarizer" "Summarize doc") "Done." rfl rfl rfl
  simpa [runSubAgent, SUB_AGENT_MAX_ITERATIONS] using h

/-- A loop whose every turn is a non-empty native tool-calls response
runs its fuel out and returns the exhaustion outcome. -/
theorem runLoopAux_always_tool_calls (parse : String → Option Js)
    (genId : Nat → String) (provider : Provider) (tools : List Tool)
    (H : ∀ messages : List Message,
      (provider.chat messages tools).type = "tool_calls" ∧
      ((provider.chat messages tools).toolCalls.getD []).length ≠ 0) :
    ∀ (fuel turn : Nat) (messages : List Message),
      runLoopAux parse genId provider tools fuel turn messages =
        { success := false, response := maxIterationsMessage,
          iterations := turn + fuel, providerId := provider.id } := by
  intro fuel
  induction fuel with
  | zero => intro turn messages; simp [runLoopAux]
  | succ n ih =>
      intro turn messages
      obtain ⟨h1, h2⟩ := H messages
      rw [runLoopAux]
      dsimp only
      have hne : ¬ (provider.chat messages tools).type = "text" := by
        rw [h1]; decide
      rw [if_neg hne, if_pos ⟨h1, h2⟩, ih]
      have : turn + 1 + n = turn + (n + 1) := by omega
      rw [this]

/-- C9: a backend that always returns a native tool-calls response (so
no terminal text turn ever occurs) exhausts the cap: the outcome is
`success = false`, `iterations = 10`, with the fixed exhaustion
message. -/
theorem runSubAgent_exhausts_cap (parse : String → Option Js)
    (genId : Nat → String) (task role : String) (provider : Provider)
    (tools : List Tool)
    (H : ∀ messages : List Message,
      (provider.chat messages tools).type = "tool_calls" ∧
      ((provider.chat messages tools).toolCalls.getD []).length ≠ 0) :
    runSubAgent parse genId task role provider tools =
      { success := false, response := maxIterationsMessage,
        iterations := 10, providerId := provider.id } := by
  have h := runLoopAux_always_tool_calls parse genId provider tools H
    SUB_AGENT_MAX_ITERATIONS 0 (buildSeedMessages role task)
  simpa [runSubAgent, SUB_AGENT_MAX_ITERATIONS] using h

/-- C9, instantiated on a backend that always emits one native call. -/
theorem runSubAgent_exhausts_cap_witness :
    runSubAgent noParse genId0 "t" "r" toolCallsProvider [] =
      { success := false, response := maxIterationsMessage,
        iterations := 10, providerId := "p2" } := by
  have H : ∀ messages : List Message,
      (toolCallsProvider.chat messages []).type = "tool_calls" ∧
      ((toolCallsProvider.chat messages []).toolCalls.getD []).length ≠ 0 := by
    intro messages
    exact ⟨rfl, by simp [toolCallsProvider]⟩
  have h := runSubAgent_exhausts_cap noParse genId0 "t" "r" toolCallsProvider [] H
  simpa using h

/-- The brace scan fails when there is no opening brace, no closing
brace, or the last closing brace does not come after the first opening
one. -/
theorem braceSlice_none_of_scan (text : String)
    (h : charIndexOf text.toList lbrace = none ∨
         charLastIndexOf text.toList rbrace = none ∨
         ∃ s e, charIndexOf text.toList lbrace = some s ∧
                charLastIndexOf text.toList rbrace = some e ∧ e ≤ s) :
    braceSlice text = none := by
  unfold braceSlice
  rcases h with h | h | ⟨s, e, hs, he, hle⟩
  · simp only [h]
  · rcases h1 : charIndexOf text.toList lbrace with _ | s
    · simp only [h1]
    · simp only [h1, h]
  · simp only [hs, he, if_pos hle]

/-- A parse result that is not a plain object is rejected. -/
theorem extractFromParsed_none_of_not_obj (newId : String) (js : Js)
    (h : js.isPlainObj = false) : extractFromParsed newId js = none := by
  cases js <;> simp_all [extractFromParsed, Js.isPlainObj]

/-- A parsed object with none of the alias keys is rejected. -/
theorem extractFromParsed_none_of_no_key (newId : String)
    (fields : List (String × Js))
    (h : ∀ k ∈ TOOL_ACTION_KEYS, hasKey fields k = false) :
    extractFromParsed newId (Js.obj fields) = none := by
  simp only [extractFromParsed]
  rw [List.find?_eq_none.mpr (by intro k hk; simp [h k hk])]

/-- C6: tool-call extraction fails closed — it is a total function
into `Option`, and it reports "not found" (`none`) whenever the text
has no opening brace, no closing brace, the last closing brace does
not come after the first opening one, the brace-delimited slice fails
to parse (any `parse` behaviour), the parse result is not a plain
object, or the parsed object has none of the alias keys
`action`/`tool`/`name`. -/
theorem extractToolCallFromText_fail_closed (parse : String → Option Js)
    (newId text : String)
    (h : charIndexOf text.toList lbrace = none ∨
         charLastIndexOf text.toList rbrace = none ∨
         (∃ s e, charIndexOf text.toList lbrace = some s ∧
                 charLastIndexOf text.toList rbrace = some e ∧ e ≤ s) ∨
         (∃ raw, braceSlice text = some raw ∧ parse raw = none) ∨
         (∃ raw js, braceSlice text = some raw ∧ parse raw = some js ∧
            js.isPlainObj = false) ∨
         (∃ raw fields, braceSlice text = some raw ∧
            parse raw = some (Js.obj fields) ∧
            ∀ k ∈ TOOL_ACTION_KEYS, hasKey fields k = false)) :
    extractToolCallFromText parse newId text = none := by
  by_cases htext : text = ""
  · simp [extractToolCallFromText, htext]
  · unfold extractToolCallFromText
    rw [if_neg htext]
    rcases h with h | h | h | ⟨raw, hraw, hp⟩ | ⟨raw, js, hraw, hp, hobj⟩ |
      ⟨raw, fields, hraw, hp, hkeys⟩
    · rw [braceSlice_none_of_scan text (Or.inl h)]
    · rw [braceSlice_none_of_scan text (Or.inr (Or.inl h))]
    · rw [braceSlice_none_of_scan text (Or.inr (Or.inr h))]
    · rw [hraw]
      dsimp only
      rw [hp]
    · rw [hraw]
      dsimp only
      rw [hp]
      exact extractFromParsed_none_of_not_obj newId js hobj
    · rw [hraw]
      dsimp only
      rw [hp]
      exact extractFromParsed_none_of_no_key newId fields hkeys

/-- C6, instantiated on a brace-free text. -/
theorem extractToolCallFromText_fail_closed_witness :
    extractToolCallFromText noParse "w0" "no embedded call here" = none :=
  extractToolCallFromText_fail_closed noParse "w0" "no embedded call here"
    (Or.inl rfl)

/-- C7: on successful extraction, the recovered record's name is the
(stringified) value of the first alias key present in the order
`action`, `tool`, `name`, and its arguments are the remaining keys of
the object with normalization applied; normalization leaves an
argument record owning `filename` unchanged, else adopts the value of
`file_path`, else of `path`. -/
theorem extractToolCallFromText_success :
    (∀ (parse : String → Option Js) (newId text raw : String)
        (fields : List (String × Js)) (actionKey : String),
        braceSlice text = some raw →
        parse raw = some (Js.obj fields) →
        TOOL_ACTION_KEYS.find? (fun k => hasKey fields k) = some actionKey →
        jsToString (jsLookup fields actionKey) ≠ "" →
        extractToolCallFromText parse newId text =
          some { id := newId
                 name := jsToString (jsLookup fields actionKey)
                 arguments := normalizeToolArguments
                   (fields.filter
                     (fun kv => !(TOOL_ACTION_KEYS.contains kv.1))) }) ∧
    (∀ args : List (String × Js), hasKey args "filename" = true →
        normalizeToolArguments args = args) ∧
    (∀ args : List (String × Js), hasKey args "filename" = false →
        hasKey args "file_path" = true →
        normalizeToolArguments args =
          args ++ [("filename", jsLookup args "file_path")]) ∧
    (∀ args : List (String × Js), hasKey args "filename" = false →
        hasKey args "file_path" = false → hasKey args "path" = true →
        normalizeToolArguments args =
          args ++ [("filename", jsLookup args "path")]) := by
  refine ⟨?_, ?_, ?_, ?_⟩
  · intro parse newId text raw fields actionKey hslice hparse hkey hname
    have htext : text ≠ "" := by
      intro hx
      rw [hx] at hslice
      exact Option.noConfusion hslice
    unfold extractToolCallFromText
    rw [if_neg htext, hslice]
    dsimp only
    rw [hparse]
    dsimp only
    simp only [extractFromParsed]
    rw [hkey]
    simp [hname]
  · intro args h
    simp [normalizeToolArguments, h]
  · intro args h1 h2
    simp [normalizeToolArguments, h1, h2]
  · intro args h1 h2 h3
    simp [normalizeToolArguments, h1, h2, h3]

/-- C7, instantiated: extraction on the minimal payload
`\x7b"action":"read","path":"a.txt"\x7d` round-trips to action name
`read` with the `path` argument kept (and normalized into
`filename`). -/
theorem extractToolCallFromText_success_witness :
    extractToolCallFromText parseFix "u1" tcText =
      some { id := "u1", name := "read",
             arguments := [("path", Js.str "a.txt"),
                           ("filename", Js.str "a.txt")] } :=
  (extractToolCallFromText_success.1 parseFix "u1" tcText tcText
    [("action", Js.str "read"), ("path", Js.str "a.txt")] "action"
    rfl rfl rfl (by decide)).trans rfl

/-- C3: the delegation entry point's `execute` is a total function
into strings — it never raises. A blank (absent, empty or
whitespace-only) task or role returns the descriptive validation
error, independently of every backend/provider collaborator (the
result is the same constant for all of them, so no backend call can
have been consulted); a provider-resolution failure returns its
message in an `Error resolving provider:` text; and the remaining path
returns the formatted outcome text of the sub-agent run. -/
theorem delegateExecute_spec :
    (∀ (parse : String → Option Js) (genId : Nat → String)
        (gft route : String → Except String Provider)
        (allTools : List Tool) (safe : List String) (args : DelegateArgs),
        isBlankArg args.task = true →
        delegateExecute parse genId gft route allTools safe args =
          "Error: task must be a non-empty string.") ∧
    (∀ (parse : String → Option Js) (genId : Nat → String)
        (gft route : String → Except String Provider)
        (allTools : List Tool) (safe : List String) (args : DelegateArgs),
        isBlankArg args.task = false → isBlankArg args.role = true →
        delegateExecute parse genId gft route allTools safe args =
          "Error: role must be a non-empty string.") ∧
    (∀ (parse : String → Option Js) (genId : Nat → String)
        (gft route : String → Except String Provider)
        (allTools : List Tool) (safe : List String) (args : DelegateArgs)
        (e : String),
        isBlankArg args.task = false → isBlankArg args.role = false →
        resolveProvider gft route args.tier ((args.task).getD "") =
          Except.error e →
        delegateExecute parse genId gft route allTools safe args =
          "Error resolving provider: " ++ e) ∧
    (∀ (parse : String → Option Js) (genId : Nat → String)
        (gft route : String → Except String Provider)
        (allTools : List Tool) (safe : List String) (args : DelegateArgs)
        (p : Provider),
        isBlankArg args.task = false → isBlankArg args.role = false →
        resolveProvider gft route args.tier ((args.task).getD "") =
          Except.ok p →
        delegateExecute parse genId gft route allTools safe args =
          formatDelegationResult ((args.role).getD "")
            (runSubAgent parse genId ((args.task).getD "")
              ((args.role).getD "") p
              (subAgentToolsOf allTools safe ((args.tools).getD [])))) := by
  refine ⟨?_, ?_, ?_, ?_⟩
  · intro parse genId gft route allTools safe args h
    simp [delegateExecute, h]
  · intro parse genId gft route allTools safe args h1 h2
    simp [delegateExecute, h1, h2]
  · intro parse genId gft route allTools safe args e h1 h2 hres
    simp [delegateExecute, h1, h2, hres]
  · intro parse genId gft route allTools safe args p h1 h2 hres
    simp [delegateExecute, h1, h2, hres]

/-- C3, instantiated: absent task, whitespace-only task, whitespace
role, and a failing router each produce their returned error text. -/
theorem delegateExecute_spec_witness :
    delegateExecute noParse genId0 failingGetForTier failingRouter []
        DEFAULT_SAFE_TOOLS { task := none } =
      "Error: task must be a non-empty string." ∧
    delegateExecute noParse genId0 failingGetForTier failingRouter []
        DEFAULT_SAFE_TOOLS { task := some "   ", role := some "r" } =
      "Error: task must be a non-empty string." ∧
    delegateExecute noParse genId0 failingGetForTier failingRouter []
        DEFAULT_SAFE_TOOLS { task := some "Summarize doc", role := some " " } =
      "Error: role must be a non-empty string." ∧
    delegateExecute noParse genId0 failingGetForTier failingRouter []
        DEFAULT_SAFE_TOOLS
        { task := some "Summarize doc", role := some "Summarizer" } =
      "Error resolving provider: no healthy provider" :=
  ⟨delegateExecute_spec.1 noParse genId0 failingGetForTier failingRouter []
      DEFAULT_SAFE_TOOLS { task := none } rfl,
   delegateExecute_spec.1 noParse genId0 failingGetForTier failingRouter []
      DEFAULT_SAFE_TOOLS { task := some "   ", role := some "r" } rfl,
   delegateExecute_spec.2.1 noParse genId0 failingGetForTier failingRouter []
      DEFAULT_SAFE_TOOLS { task := some "Summarize doc", role := some " " }
      rfl rfl,
   delegateExecute_spec.2.2.1 noParse genId0 failingGetForTier failingRouter []
      DEFAULT_SAFE_TOOLS
      { task := some "Summarize doc", role := some "Summarizer" }
      "no healthy provider" rfl rfl rfl⟩

/-- C10: the tools granted to a sub-agent are always drawn from the
full catalog, and a requested name matching no catalog tool yields no
tool object bearing it (the assembly is total — no error is raised for
unknown names). -/
theorem subAgentToolsOf_spec :
    (∀ (allTools : List Tool) (safe extra : List String) (t : Tool),
        t ∈ subAgentToolsOf allTools safe extra → t ∈ allTools) ∧
    (∀ (allTools : List Tool) (safe extra : List String) (nm : String),
        (∀ t ∈ allTools, t.name ≠ nm) →
        ∀ t ∈ subAgentToolsOf allTools safe extra, t.name ≠ nm) := by
  constructor
  · intro allTools safe extra t ht
    exact List.mem_of_mem_filter ht
  · intro allTools safe extra nm hcat t ht
    exact hcat t (List.mem_of_mem_filter ht)

/-- C10, instantiated: with a one-tool catalog and the unknown request
`ghost`, the granted tool is the catalog tool and no granted tool is
named `ghost`. -/
theorem subAgentToolsOf_spec_witness :
    fixtureReadTool ∈ fixtureCatalog ∧ fixtureReadTool.name ≠ "ghost" := by
  have hmem : fixtureReadTool ∈
      subAgentToolsOf fixtureCatalog DEFAULT_SAFE_TOOLS ["ghost"] := by
    show fixtureReadTool ∈ [fixtureReadTool]
    exact List.mem_singleton.mpr rfl
  have hcat : ∀ t ∈ fixtureCatalog, t.name ≠ "ghost" := by
    intro t ht
    simp only [fixtureCatalog, List.mem_singleton] at ht
    subst ht
    decide
  exact ⟨subAgentToolsOf_spec.1 fixtureCatalog DEFAULT_SAFE_TOOLS ["ghost"]
           fixtureReadTool hmem,
         subAgentToolsOf_spec.2 fixtureCatalog DEFAULT_SAFE_TOOLS ["ghost"]
           "ghost" hcat fixtureReadTool hmem⟩

end Tinyclaw
